import Mathlib

/-!
Shallow embedding of `src/main.rs` from the `compute-shaders` repository:
a wgpu compute pipeline that fills a storage buffer on the GPU, copies it
to a staging buffer, maps the staging buffer for host reads and encodes
the bytes as a 256x256 RGBA8 PNG file.

The embedding models the resource-allocation trace (buffers and textures,
identified by allocation ids), the recorded command sequence, the host-side
event trace around the asynchronous map, the error behaviour (every fallible
call in the source is `.unwrap()`), and the GPU dispatch semantics (each
invocation writes the shader's per-texel value to its own cell, in an
arbitrary execution schedule).
-/

namespace ComputeShaders

/-! ## Constants from `src/main.rs` -/

/-- `let texture_size = 256u32;` (lines 38 and 124). -/
def texture_size : Nat := 256

/-- `std::mem::size_of::<u32>()` on the targets the crate builds for. -/
def u32_size : Nat := 4

/-- `let buffer_size = texture_size * texture_size * size_of::<u32>()` (lines 39 and 125). -/
def buffer_size : Nat := texture_size * texture_size * u32_size

/-- Modelled from the spec: the compute shader's local workgroup size.
`shader.wgsl` is referenced by `include_wgsl!` but is not under `src/`;
the spec fixes the local workgroup size to 8 (8x8 in the two spatial
dimensions). -/
def local_group_size : Nat := 8

/-! ## Buffer and texture descriptors -/

/-- The subset of `wgpu::BufferUsages` flags the program uses. -/
structure BufferUsages where
  storage : Bool
  copy_src : Bool
  copy_dst : Bool
  map_read : Bool
deriving DecidableEq, Repr

/-- `STORAGE | COPY_SRC | COPY_DST` (lines 45 and 131-133). -/
def storageUsage : BufferUsages :=
  { storage := true, copy_src := true, copy_dst := true, map_read := false }

/-- `COPY_DST | MAP_READ` (line 52). -/
def stagingUsage : BufferUsages :=
  { storage := false, copy_src := false, copy_dst := true, map_read := true }

/-- `wgpu::BufferDescriptor` as used by the program. -/
structure BufferDescriptor where
  label : Option String
  size : Nat
  usage : BufferUsages
  mapped_at_creation : Bool
deriving DecidableEq, Repr

/-- The fields of `wgpu::TextureDescriptor` that the program sets to
non-default values (the dummy texture is 1x1, COPY_SRC). -/
structure TextureDescriptor where
  width : Nat
  height : Nat
  depth_or_array_layers : Nat
  copy_src : Bool
deriving DecidableEq, Repr

/-! ## Allocation state

Every `device.create_buffer` / `device.create_texture` call draws a fresh
id from a shared counter and appends the descriptor to the allocation
trace, so that "which resource does this command reference" is a question
about ids. -/

structure AllocState where
  nextId : Nat
  buffers : List (Nat × BufferDescriptor)
  textures : List (Nat × TextureDescriptor)
deriving DecidableEq, Repr

def AllocState.init : AllocState := { nextId := 0, buffers := [], textures := [] }

def createBuffer (d : BufferDescriptor) (s : AllocState) : Nat × AllocState :=
  (s.nextId,
   { s with nextId := s.nextId + 1, buffers := s.buffers ++ [(s.nextId, d)] })

def createTexture (d : TextureDescriptor) (s : AllocState) : Nat × AllocState :=
  (s.nextId,
   { s with nextId := s.nextId + 1, textures := s.textures ++ [(s.nextId, d)] })

/-! ## Bind groups, commands, host events -/

/-- `wgpu::BindGroupEntry`: a binding slot and the id of the buffer bound
as its resource. -/
structure BindGroupEntry where
  binding : Nat
  resource : Nat
deriving DecidableEq, Repr

/-- `wgpu::BindGroupDescriptor`, reduced to its entries. -/
structure BindGroup where
  entries : List BindGroupEntry
deriving DecidableEq, Repr

/-- One recorded GPU command, in recording order.  `beginComputePass` /
`endComputePass` mark the scope of the Rust compute-pass block
(lines 151-159). -/
inductive Command where
  | beginComputePass
  | setPipeline
  | setBindGroup (slot : Nat) (group : BindGroup)
  | dispatchWorkgroups (x y z : Nat)
  | endComputePass
  | copyBufferToBuffer (src : Nat) (srcOffset : Nat) (dst : Nat) (dstOffset : Nat) (size : Nat)
deriving DecidableEq, Repr

/-- Host-side events of `Gpu::run` after command recording (lines 170-188). -/
inductive HostEvent where
  | submit
  | mapAsync
  | pollWait
  | receiveCompletion
  | getMappedRange
  | readMappedData
  | dropView
  | unmap
deriving DecidableEq, Repr

/-! ## `Gpu::new` (lines 26-120) -/

/-- The handles `Gpu::new` stores in `Self`, plus (for the frame analysis)
the id of the storage buffer it creates and immediately drops. -/
structure Gpu where
  newStorageId : Nat
  outputBufferId : Nat
  texId : Nat
deriving DecidableEq, Repr

def newStorageBufferDesc : BufferDescriptor :=
  { label := some "Storage Buffer", size := buffer_size,
    usage := storageUsage, mapped_at_creation := false }

def outputBufferDesc : BufferDescriptor :=
  { label := some "Output Buffer", size := buffer_size,
    usage := stagingUsage, mapped_at_creation := false }

def dummyTexDesc : TextureDescriptor :=
  { width := 1, height := 1, depth_or_array_layers := 1, copy_src := true }

/-- `Gpu::new`: allocates the (unused) storage buffer, the output/staging
buffer, then - after the shader, bind-group layout, pipeline layout and
pipeline, which allocate no buffers or textures - the 1x1 dummy texture. -/
def Gpu.new (s : AllocState) : Gpu × AllocState :=
  let (storageId, s) := createBuffer newStorageBufferDesc s
  let (outputId, s) := createBuffer outputBufferDesc s
  let (texId, s) := createTexture dummyTexDesc s
  ({ newStorageId := storageId, outputBufferId := outputId, texId := texId }, s)

/-! ## `Gpu::run` (lines 123-189) -/

def runStorageBufferDesc : BufferDescriptor :=
  { label := some "Storage Buffer", size := buffer_size,
    usage := storageUsage, mapped_at_creation := false }

/-- Everything `Gpu::run` records: the id of the storage buffer it creates,
the bind groups it creates, the command sequence it records and submits,
and the host events around the asynchronous map. -/
structure RunRecord where
  runStorageId : Nat
  bindGroups : List BindGroup
  commands : List Command
  hostEvents : List HostEvent
deriving DecidableEq, Repr

/-- `Gpu::run`: create a fresh storage buffer, bind it at slot 0, record
begin-pass / set-pipeline / set-bind-group / dispatch(32,32,1) / end-pass,
then the buffer-to-buffer copy into the staging buffer, submit, and run the
map-read protocol. -/
def Gpu.run (g : Gpu) (s : AllocState) : RunRecord × AllocState :=
  let (storageId, s) := createBuffer runStorageBufferDesc s
  let bindGroup : BindGroup := { entries := [{ binding := 0, resource := storageId }] }
  let commands : List Command :=
    [Command.beginComputePass,
     Command.setPipeline,
     Command.setBindGroup 0 bindGroup,
     Command.dispatchWorkgroups 32 32 1,
     Command.endComputePass,
     Command.copyBufferToBuffer storageId 0 g.outputBufferId 0 buffer_size]
  let hostEvents : List HostEvent :=
    [HostEvent.submit, HostEvent.mapAsync, HostEvent.pollWait,
     HostEvent.receiveCompletion, HostEvent.getMappedRange,
     HostEvent.readMappedData, HostEvent.dropView, HostEvent.unmap]
  ({ runStorageId := storageId, bindGroups := [bindGroup],
     commands := commands, hostEvents := hostEvents }, s)

/-! ## `main` (lines 8-13): one `Gpu::new`, one `Gpu::run` -/

def mainGpu : Gpu := (Gpu.new AllocState.init).1

def stateAfterNew : AllocState := (Gpu.new AllocState.init).2

def mainRun : RunRecord := (Gpu.run mainGpu stateAfterNew).1

def finalState : AllocState := (Gpu.run mainGpu stateAfterNew).2

/-! ## Command-sequence analysis -/

/-- The workgroup counts of every dispatch in a command list. -/
def dispatches : List Command → List (Nat × Nat × Nat)
  | [] => []
  | Command.dispatchWorkgroups x y z :: rest => (x, y, z) :: dispatches rest
  | _ :: rest => dispatches rest

/-- Whether a command is a buffer-to-buffer copy. -/
def Command.isCopy : Command → Bool
  | Command.copyBufferToBuffer _ _ _ _ _ => true
  | _ => false

/-- Walks a command list tracking whether a compute pass is open
(`inPass`) and whether at least one pass has been closed (`closedOnce`);
holds iff every buffer-to-buffer copy is recorded while no pass is open
and only after some compute pass has been closed. -/
def copyScopeOk : List Command → Bool → Bool → Bool
  | [], _, _ => true
  | Command.beginComputePass :: rest, _, closedOnce => copyScopeOk rest true closedOnce
  | Command.endComputePass :: rest, _, _ => copyScopeOk rest false true
  | Command.copyBufferToBuffer _ _ _ _ _ :: rest, inPass, closedOnce =>
      (!inPass && closedOnce) && copyScopeOk rest inPass closedOnce
  | _ :: rest, inPass, closedOnce => copyScopeOk rest inPass closedOnce

/-- The buffer ids referenced by one command. -/
def Command.bufferRefs : Command → List Nat
  | Command.setBindGroup _ g => g.entries.map BindGroupEntry.resource
  | Command.copyBufferToBuffer src _ dst _ _ => [src, dst]
  | _ => []

/-- Every resource id referenced by the recorded commands or by a created
bind group.  (No recorded command references any texture: `Command` has no
texture-consuming constructor because the source records none.) -/
def referencedIds (r : RunRecord) : List Nat :=
  (r.commands.map Command.bufferRefs).flatten
    ++ (r.bindGroups.map fun g => g.entries.map BindGroupEntry.resource).flatten

/-! ## Mapped-range protocol analysis

A small automaton over the host-event trace: `completed` is set by the
one-shot completion message, `viewLive` while a mapped view exists,
`unmapped` once the buffer is unmapped.  The trace is accepted iff a view
is obtained only after completion and before unmap, the mapped data is
read only while a view is live, and unmap happens only after the view has
been dropped. -/
def mapProtocolOk : List HostEvent → Bool → Bool → Bool → Bool
  | [], _, _, _ => true
  | HostEvent.receiveCompletion :: rest, _, viewLive, unmapped =>
      mapProtocolOk rest true viewLive unmapped
  | HostEvent.getMappedRange :: rest, completed, _, unmapped =>
      (completed && !unmapped) && mapProtocolOk rest completed true unmapped
  | HostEvent.readMappedData :: rest, completed, viewLive, unmapped =>
      viewLive && mapProtocolOk rest completed viewLive unmapped
  | HostEvent.dropView :: rest, completed, _, unmapped =>
      mapProtocolOk rest completed false unmapped
  | HostEvent.unmap :: rest, completed, viewLive, _ =>
      !viewLive && mapProtocolOk rest completed viewLive true
  | _ :: rest, completed, viewLive, unmapped =>
      mapProtocolOk rest completed viewLive unmapped

/-! ## Error behaviour

Every fallible call in the source is `.unwrap()`: `request_adapter`
(line 32), `request_device` (line 36), `device.poll` (line 176), the
map-completion result (line 177), `ImageBuffer::from_raw` (line 183) and
`image.save` (line 185).  The environment records which of these external
operations succeed; the whole-program trace stops at the first failure
(an `unwrap` panic terminates the process). -/

structure Env where
  adapterAvailable : Bool
  deviceOk : Bool
  pollOk : Bool
  mapOk : Bool
  encodeOk : Bool
deriving DecidableEq, Repr

inductive ProgError where
  | noAdapter
  | deviceUnavailable
  | pollFailed
  | mapFailed
  | malformedPixelBuffer
  | imageEncodeFailed
deriving DecidableEq, Repr

/-- Observable whole-program events: one `attempt` per fallible stage
(each stage is tried at most once - no retry loop exists in the source),
plus the readback length, the saved file and the printed line. -/
inductive TraceEvent where
  | attemptAdapter
  | attemptDevice
  | attemptPoll
  | attemptMapWait
  | attemptDecode
  | attemptEncode
  | readBack (len : Nat)
  | savedFile (name : String) (width height channels : Nat)
  | printed (line : String)
deriving DecidableEq, Repr

/-- `ImageBuffer::from_raw` succeeds iff the byte container's length is
exactly `width * height * 4` (RGBA8: four one-byte channels). -/
def imageFromRaw (width height len : Nat) : Option Unit :=
  if len = width * height * 4 then some () else none

/-- The whole-program observable trace and final error, as a function of
which external operations succeed. -/
def programExec (env : Env) : List TraceEvent × Option ProgError :=
  let tr := [TraceEvent.attemptAdapter]
  if !env.adapterAvailable then (tr, some ProgError.noAdapter) else
  let tr := tr ++ [TraceEvent.attemptDevice]
  if !env.deviceOk then (tr, some ProgError.deviceUnavailable) else
  let tr := tr ++ [TraceEvent.attemptPoll]
  if !env.pollOk then (tr, some ProgError.pollFailed) else
  let tr := tr ++ [TraceEvent.attemptMapWait]
  if !env.mapOk then (tr, some ProgError.mapFailed) else
  let tr := tr ++ [TraceEvent.readBack buffer_size, TraceEvent.attemptDecode]
  match imageFromRaw texture_size texture_size buffer_size with
  | none => (tr, some ProgError.malformedPixelBuffer)
  | some _ =>
    let tr := tr ++ [TraceEvent.attemptEncode]
    if !env.encodeOk then (tr, some ProgError.imageEncodeFailed) else
    (tr ++ [TraceEvent.savedFile "gradient.png" texture_size texture_size 4,
            TraceEvent.printed "Saved gradient.png"], none)

/-- Events that constitute program output (a written file or a printed
line). -/
def TraceEvent.isOutput : TraceEvent → Bool
  | TraceEvent.savedFile _ _ _ _ => true
  | TraceEvent.printed _ => true
  | _ => false

def TraceEvent.isAttempt : TraceEvent → Bool
  | TraceEvent.attemptAdapter => true
  | TraceEvent.attemptDevice => true
  | TraceEvent.attemptPoll => true
  | TraceEvent.attemptMapWait => true
  | TraceEvent.attemptDecode => true
  | TraceEvent.attemptEncode => true
  | _ => false

/-- No fallible stage is ever attempted twice in a trace. -/
def noRetry (tr : List TraceEvent) : Bool :=
  [TraceEvent.attemptAdapter, TraceEvent.attemptDevice, TraceEvent.attemptPoll,
   TraceEvent.attemptMapWait, TraceEvent.attemptDecode, TraceEvent.attemptEncode].all
    fun a => tr.count a ≤ 1

def allOkEnv : Env :=
  { adapterAvailable := true, deviceOk := true, pollOk := true,
    mapOk := true, encodeOk := true }

/-! ## Dispatch semantics and determinism

Each compute invocation writes the shader's per-texel 32-bit value into
its own cell of the storage buffer (the shader is an opaque function from
invocation index to value; one read-write storage binding at slot 0).
The GPU executes the invocations in some unspecified schedule; a schedule
is any permutation of the invocation indices. -/

/-- Total invocations of the dispatch: (32,32,1) workgroups of
`local_group_size` x `local_group_size` threads. -/
def totalInvocations : Nat := (32 * local_group_size) * (32 * local_group_size)

/-- Write value `v` into cell `j` of the buffer. -/
def writeCell (buf : Nat → Nat) (j v : Nat) : Nat → Nat :=
  fun k => if k = j then v else buf k

/-- Run the dispatch: execute the scheduled invocations in order, each
writing its shader value to its own cell. -/
def runDispatch (shader : Nat → Nat) (sched : List Nat) (buf : Nat → Nat) : Nat → Nat :=
  sched.foldl (fun b j => writeCell b j (shader j)) buf

/-- Storage-buffer contents after the dispatch, starting from a zeroed
buffer. -/
def gpuOutput (shader : Nat → Nat) (sched : List Nat) : Nat → Nat :=
  runDispatch shader sched fun _ => 0

/-- The image artifact the program emits: fixed dimensions and the pixel
values copied out of the storage buffer (the copy, the map and the encode
are value-preserving). -/
structure ImageArtifact where
  width : Nat
  height : Nat
  pixels : List Nat
deriving DecidableEq, Repr

def pipelineArtifact (shader : Nat → Nat) (sched : List Nat) : ImageArtifact :=
  { width := texture_size, height := texture_size,
    pixels := (List.range totalInvocations).map (gpuOutput shader sched) }

/-- Ceiling division, as the spec writes `ceil(width / local_group_size)`. -/
def ceilDiv (a b : Nat) : Nat := (a + b - 1) / b

def TraceEvent.isPrinted : TraceEvent → Bool
  | TraceEvent.printed _ => true
  | _ => false

def TraceEvent.isSaved : TraceEvent → Bool
  | TraceEvent.savedFile _ _ _ _ => true
  | _ => false

/-! ## Helper lemmas for the dispatch-determinism proof -/

theorem runDispatch_nil (shader : Nat → Nat) (buf : Nat → Nat) :
    runDispatch shader [] buf = buf := rfl

theorem runDispatch_cons (shader : Nat → Nat) (a : Nat) (t : List Nat) (buf : Nat → Nat) :
    runDispatch shader (a :: t) buf = runDispatch shader t (writeCell buf a (shader a)) := rfl

/-- A cell no scheduled invocation writes keeps its initial value. -/
theorem runDispatch_not_mem (shader : Nat → Nat) (sched : List Nat) (buf : Nat → Nat)
    (j : Nat) (h : j ∉ sched) : runDispatch shader sched buf j = buf j := by
  induction sched generalizing buf with
  | nil => rfl
  | cons a t ih =>
    rw [runDispatch_cons]
    have hj : j ∉ t := fun hm => h (List.mem_cons_of_mem _ hm)
    have hne : j ≠ a := fun he => h (he ▸ List.mem_cons_self _ _)
    rw [ih _ hj]
    simp [writeCell, hne]

/-- A scheduled cell ends up holding the shader's value for it, no matter
where in the schedule the write happens. -/
theorem runDispatch_mem (shader : Nat → Nat) (sched : List Nat) (buf : Nat → Nat)
    (j : Nat) (h : j ∈ sched) : runDispatch shader sched buf j = shader j := by
  induction sched generalizing buf with
  | nil => cases h
  | cons a t ih =>
    rw [runDispatch_cons]
    by_cases hm : j ∈ t
    · exact ih _ hm
    · have hja : j = a := by
        rcases List.mem_cons.mp h with h1 | h2
        · exact h1
        · exact absurd h2 hm
      rw [runDispatch_not_mem _ _ _ _ hm, hja]
      simp [writeCell]

/-- Under any schedule that is a permutation of all invocation indices,
cell `i < totalInvocations` holds `shader i` after the dispatch. -/
theorem gpuOutput_eq_shader (shader : Nat → Nat) (sched : List Nat)
    (h : sched.Perm (List.range totalInvocations)) (i : Nat) (hi : i < totalInvocations) :
    gpuOutput shader sched i = shader i :=
  runDispatch_mem shader sched _ i (h.mem_iff.mpr (List.mem_range.mpr hi))

/-! ## Claim theorems -/

/-- C1, counterexample: it is false that exactly two GPU buffers are
allocated over one whole execution - `Gpu::new` allocates a storage buffer
and the staging buffer, and `Gpu::run` allocates a third (another storage
buffer). -/
theorem one_execution_not_two_buffers : ¬ finalState.buffers.length = 2 := by
  decide

/-- C1, amended: over one whole execution exactly three GPU buffers are
allocated - two storage buffers with usage STORAGE|COPY_SRC|COPY_DST (one
during initialization, one during the run) and one staging buffer with
usage COPY_DST|MAP_READ only. -/
theorem one_execution_three_buffers :
    finalState.buffers.length = 3 ∧
    (finalState.buffers.map fun b => b.2.usage) = [storageUsage, stagingUsage, storageUsage] ∧
    storageUsage = { storage := true, copy_src := true, copy_dst := true, map_read := false } ∧
    stagingUsage = { storage := false, copy_src := false, copy_dst := true, map_read := true } := by
  decide

/-- C2: the single compute dispatch uses workgroup counts
(ceil(width/local_group_size), ceil(height/local_group_size), 1), which
for width = height = 256 and local group size 8 is exactly (32, 32, 1). -/
theorem single_dispatch_workgroup_counts :
    dispatches mainRun.commands =
      [(ceilDiv texture_size local_group_size, ceilDiv texture_size local_group_size, 1)] ∧
    ceilDiv texture_size local_group_size = 32 := by
  decide

/-- C3: every GPU buffer the program allocates has byte size
width * height * 4, which for the fixed 256x256 configuration is
262144 bytes. -/
theorem every_buffer_size_w_h_4 :
    finalState.buffers.length = 3 ∧
    (finalState.buffers.all fun b => b.2.size == texture_size * texture_size * 4) = true ∧
    texture_size * texture_size * 4 = 262144 := by
  decide

/-- C4: the recorded command sequence contains exactly one buffer-to-buffer
copy, and every copy is recorded while no compute pass is open and only
after a compute pass has been closed. -/
theorem copy_recorded_after_pass_closed :
    copyScopeOk mainRun.commands false false = true ∧
    mainRun.commands.countP Command.isCopy = 1 := by
  decide

/-- C5: the only bind group ever created associates slot 0 with the
run-local compute-output storage buffer, and no bind group entry references
the staging buffer. -/
theorem staging_buffer_never_bound :
    mainRun.bindGroups = [{ entries := [{ binding := 0, resource := mainRun.runStorageId }] }] ∧
    (mainRun.bindGroups.all fun g =>
      g.entries.all fun e => e.resource != mainGpu.outputBufferId) = true := by
  decide

/-- C6: the host-event trace obeys the mapped-range protocol - the mapped
view is obtained only after the one-shot completion message is received and
before unmap, the data is read only while the view is live, and unmap
happens only after the view is dropped; each protocol step occurs exactly
once. -/
theorem mapped_range_protocol_respected :
    mapProtocolOk mainRun.hostEvents false false false = true ∧
    mainRun.hostEvents.count HostEvent.receiveCompletion = 1 ∧
    mainRun.hostEvents.count HostEvent.getMappedRange = 1 ∧
    mainRun.hostEvents.count HostEvent.readMappedData = 1 ∧
    mainRun.hostEvents.count HostEvent.unmap = 1 := by
  decide

/-- C7: whenever the program ends in an error - whichever fallible stage
fails - it produces no output (no file written, no line printed), and no
stage is ever attempted more than once (no retry). -/
theorem every_error_fatal (env : Env) (h : (programExec env).2.isSome = true) :
    ((programExec env).1.all fun e => !e.isOutput) = true ∧
    noRetry (programExec env).1 = true := by
  rcases env with ⟨a, d, p, m, en⟩
  revert h
  cases a <;> cases d <;> cases p <;> cases m <;> cases en <;> decide

/-- C7 witness: with no adapter available the program errors, producing no
output and attempting each stage at most once. -/
theorem every_error_fatal_witness :
    ((programExec
        { adapterAvailable := false, deviceOk := true, pollOk := true,
          mapOk := true, encodeOk := true }).1.all fun e => !e.isOutput) = true ∧
    noRetry (programExec
        { adapterAvailable := false, deviceOk := true, pollOk := true,
          mapOk := true, encodeOk := true }).1 = true :=
  every_error_fatal
    { adapterAvailable := false, deviceOk := true, pollOk := true,
      mapOk := true, encodeOk := true } (by decide)

/-- C8: on a successful run the program reads back exactly 262144 bytes,
writes exactly one output file named "gradient.png" of 256x256 pixels with
4 channels, prints exactly one confirmation line, and ends without
error. -/
theorem success_run_outputs :
    (programExec allOkEnv).2 = none ∧
    (programExec allOkEnv).1.count (TraceEvent.readBack 262144) = 1 ∧
    (programExec allOkEnv).1.count (TraceEvent.savedFile "gradient.png" 256 256 4) = 1 ∧
    ((programExec allOkEnv).1.countP TraceEvent.isSaved) = 1 ∧
    ((programExec allOkEnv).1.countP TraceEvent.isPrinted) = 1 := by
  decide

/-- C9: the emitted image artifact is a deterministic function of the
(opaque) shader - any two GPU execution schedules of the dispatch produce
identical artifacts, so running the pipeline twice on the same shader gives
byte-identical output. -/
theorem pipeline_deterministic (shader : Nat → Nat) (s1 s2 : List Nat)
    (h1 : s1.Perm (List.range totalInvocations))
    (h2 : s2.Perm (List.range totalInvocations)) :
    pipelineArtifact shader s1 = pipelineArtifact shader s2 := by
  have hpix : (List.range totalInvocations).map (gpuOutput shader s1) =
      (List.range totalInvocations).map (gpuOutput shader s2) := by
    apply List.map_congr_left
    intro i hi
    rw [gpuOutput_eq_shader shader s1 h1 i (List.mem_range.mp hi),
        gpuOutput_eq_shader shader s2 h2 i (List.mem_range.mp hi)]
  simp [pipelineArtifact, hpix]

/-- C9 witness: the in-order schedule and the reversed schedule give the
same artifact for the identity shader. -/
theorem pipeline_deterministic_witness :
    pipelineArtifact (fun i => i) (List.range totalInvocations) =
      pipelineArtifact (fun i => i) (List.range totalInvocations).reverse :=
  pipeline_deterministic (fun i => i) (List.range totalInvocations)
    (List.range totalInvocations).reverse
    (List.Perm.refl _) (List.reverse_perm _)

/-- C10: the storage buffer and the dummy texture created in `Gpu::new`
are never referenced by any recorded command or bind group; every bind
group entry binds the run-local storage buffer, and the copy reads the
run-local storage buffer into the stored staging buffer. -/
theorem init_resources_never_referenced :
    mainGpu.newStorageId ∉ referencedIds mainRun ∧
    mainGpu.texId ∉ referencedIds mainRun ∧
    mainRun.runStorageId ≠ mainGpu.newStorageId ∧
    (mainRun.commands.all fun c =>
      match c with
      | Command.setBindGroup _ g =>
          g.entries.all fun e => e.resource == mainRun.runStorageId
      | Command.copyBufferToBuffer src _ dst _ _ =>
          src == mainRun.runStorageId && dst == mainGpu.outputBufferId
      | _ => true) = true := by
  decide

end ComputeShaders
